import Mathlib

/-!
Verification of the Pad-O-Matic auto-swell looper pedal firmware.

The repository contains several iterations of the same Teensy firmware:
`src/unnamed/part_000` (single ring buffer with loop-region cursors),
`src/just_looper.ino` (ring buffer plus a dedicated fade playback cursor),
`src/padomatic.ino` (single fixed buffer, record once then freeze),
`src/padomatic_crossfade.ino` and the second program of `src/unnamed/part_002`
(ping-pong double buffer with crossfade).

Each namespace below is a shallow embedding of one of these variants.
Machine integers (`uint32_t`) are modelled as `Nat` with explicit wraparound
where the code can overflow (`usub` is C `uint32_t` subtraction); audio
samples (`int16_t`) are `Int`; `float` values are modelled as `ℚ`, and as
`ℝ` for the logarithmic swell curve.  Integer-valued `float` constants large
enough for single precision to round (`BUFFER_SAMPLES`, the fade padding)
carry the exact float32-rounded value, documented at their definitions;
small decimal literals (`0.01`, `0.02`, `0.99`, `2.5`) are modelled by their
decimal rationals — no statement proved here depends on their last-ulp
representation error.  Hardware collaborators (faders, mixers, queues,
`Serial`) are out of scope per the specification and are not part of the
state.
-/

/-- Wrapping subtraction `a - b` on `uint32_t` values (C unsigned semantics),
for operands already reduced below `2 ^ 32`. -/
def usub (a b : Nat) : Nat := (a + 4294967296 - b % 4294967296) % 4294967296

/-- Truncation of a rational toward zero, the C semantics of casting a
floating-point value to an integer type. -/
def truncQ (q : ℚ) : Int := if 0 ≤ q then ⌊q⌋ else ⌈q⌉

namespace Swell

/-- Swell envelope gain from `computeSwellGain()` (identical in
`padomatic.ino` lines 74-82, `padomatic_crossfade.ino` lines 65-73 and both
programs of `src/unnamed/part_002`): for `elapsed < duration` the gain is
`log1p(9*t)/log1p(9) = ln(1 + 9*t)/ln 10` with `t = elapsed/duration`;
once `elapsed >= duration` the function returns the literal `1.0f`
(and clears the `swelling` flag, modelled separately).  The float arithmetic
is embedded in `ℝ`. -/
noncomputable def computeSwellGain (elapsed duration : ℕ) : ℝ :=
  if duration ≤ elapsed then 1
  else Real.log (1 + 9 * ((elapsed : ℝ) / (duration : ℝ))) / Real.log 10

/-- Crossfade gain pair from the playback section of
`padomatic_crossfade.ino` lines 180-198:
`fadeInGain = swelling ? computeSwellGain() : 1.0f` and
`fadeOutGain = 1.0f - fadeInGain`. -/
noncomputable def fadeGains (swelling : Bool) (elapsed duration : ℕ) : ℝ × ℝ :=
  let fadeInGain : ℝ := if swelling then computeSwellGain elapsed duration else 1
  (fadeInGain, 1 - fadeInGain)

end Swell

namespace Part000

/-- `const int SAMPLE_RATE = 44100;` -/
def SAMPLE_RATE : Nat := 44100

/-- `const int MAX_LOOP_DURATION = 3000;` (milliseconds) -/
def MAX_LOOP_DURATION : Nat := 3000

/-- `const int MAX_FADE_DURATION = 1500;` (milliseconds) -/
def MAX_FADE_DURATION : Nat := 1500

/-- `const int MAX_LAYERS = 10;` -/
def MAX_LAYERS : Nat := 10

/-- `const uint32_t BUFFER_SAMPLES = SAMPLE_RATE * (MAX_LOOP_DURATION +
MAX_FADE_DURATION * BUFFER_PADDING);` with `BUFFER_PADDING = 1.25f`.  The
initializer is evaluated in single-precision float: `1500 * 1.25f = 1875`
and `3000 + 1875 = 4875` are exact, but `44100 * 4875.0f` has the exact real
value `214987500`, which needs 25 significand bits; at this magnitude a
`float` ulp is `16` and the remainder `12` rounds up, so the stored value is
`214987504`. -/
def BUFFER_SAMPLES : Nat := 214987504

/-- `(uint32_t)(SAMPLE_RATE * fadeDuration * BUFFER_PADDING)`, the
fade-padding distance used when re-positioning `writeIndex` (line 236), for
the only value `fadeDuration` ever takes in this source (`MAX_FADE_DURATION
= 1500`; the analog-knob update of `fadeDuration` is commented out):
`44100 * 1500 = 66150000` is exact in float, and `66150000 * 1.25f` has the
exact real value `82687500`, a tie at the ulp `8` of that magnitude which
rounds to the even significand, so the stored value is `82687504`. -/
def fadePadding : Nat := 82687504

/-- `const float signalThreshold = 0.01;` -/
def signalThreshold : ℚ := 1 / 100

/-- `const int silenceTimeout = 750;` -/
def silenceTimeout : Nat := 750

/-- `const uint32_t tapWindow = 400;` -/
def tapWindow : Nat := 400

/-- `const uint32_t debounceDelay = 25;` -/
def debounceDelay : Nat := 25

/-- Tap events emitted by the footswitch handler: the double-tap bypass
branch and the single-tap toggle branch of `handleFootswitch`. -/
inductive TapEvent where
  | single
  | double
deriving DecidableEq

/-- Global mutable state of `src/unnamed/part_000`.  Booleans for pin levels
follow the source (`true` = `HIGH` = released, `false` = `LOW` = pressed).
`elapsedMillis` timers are modelled by the timestamp of their last reset,
compared against the current `millis()` value passed into each step. -/
structure State where
  loopBuffer : Nat → Int
  writeIndex : Nat
  readIndex : Nat
  loopStart : Nat
  loopEnd : Nat
  curLayer : Nat
  timeOfMaxLayer : Nat
  maxLayerFading : Bool
  waitingForSignal : Bool
  recording : Bool
  playingLoop : Bool
  footswitchOn : Bool
  loopTimerStart : Nat
  silenceTimerStart : Nat
  loopDuration : Nat
  fadeDuration : Nat
  previousRMS : ℚ
  lastFootswitchState : Bool
  debouncedState : Bool
  lastDebounceTime : Nat
  lastTapTime : Nat
  tapCount : Nat

/-- Initial state from the global initializers and `setup()` of
`src/unnamed/part_000` (the loop buffer is `memset` to zero on boot;
`previousRMS` is initialized to `0.0f` at line 99). -/
def initState : State where
  loopBuffer := fun _ => 0
  writeIndex := 0
  readIndex := 0
  loopStart := 0
  loopEnd := 0
  curLayer := 0
  timeOfMaxLayer := 0
  maxLayerFading := false
  waitingForSignal := true
  recording := false
  playingLoop := false
  footswitchOn := false
  loopTimerStart := 0
  silenceTimerStart := 0
  loopDuration := MAX_LOOP_DURATION
  fadeDuration := MAX_FADE_DURATION
  previousRMS := 0
  lastFootswitchState := true
  debouncedState := true
  lastDebounceTime := 0
  lastTapTime := 0
  tapCount := 0

/-- The debounced falling-edge acceptance condition of `handleFootswitch`
(`src/unnamed/part_000` lines 127-139): the raw reading must agree with the
debounced level long enough (`millis() - lastDebounceTime > debounceDelay`,
where `lastDebounceTime` was just refreshed if the reading changed), differ
from the last accepted level, and be `LOW` (pressed). -/
def acceptedEdge (s : State) (reading : Bool) (now : Nat) : Prop :=
  let lastDebounceTime := if reading = s.debouncedState then s.lastDebounceTime else now
  usub now lastDebounceTime > debounceDelay ∧ reading ≠ s.lastFootswitchState ∧ reading = false

instance (s : State) (reading : Bool) (now : Nat) : Decidable (acceptedEdge s reading now) := by
  unfold acceptedEdge; infer_instance

/-- The debounce and tap-counting section of `handleFootswitch()`
(`src/unnamed/part_000` lines 127-141): refresh `lastDebounceTime` on a raw
change, accept a stable falling edge, and on acceptance increment `tapCount`
when the edge falls within `tapWindow` of the previous one, else reset it to
`1`; finally store the raw reading into `debouncedState`. -/
def debounceTap (s : State) (reading : Bool) (now : Nat) : State :=
  let lastDebounceTime := if reading = s.debouncedState then s.lastDebounceTime else now
  let s1 : State :=
    if usub now lastDebounceTime > debounceDelay ∧ reading ≠ s.lastFootswitchState then
      if reading = false then
        if usub now s.lastTapTime < tapWindow then
          { s with lastFootswitchState := reading, lastTapTime := now,
                   tapCount := s.tapCount + 1 }
        else
          { s with lastFootswitchState := reading, lastTapTime := now, tapCount := 1 }
      else { s with lastFootswitchState := reading }
    else s
  { s1 with debouncedState := reading, lastDebounceTime := lastDebounceTime }

/-- The event branches of `handleFootswitch()` (`src/unnamed/part_000` lines
143-181), acting on the state left by `debounceTap`: the double-tap bypass
branch (`tapCount >= 2`) clears the mode flags, the loop buffer, the cursors
and the region markers; the single-tap branch (`tapCount == 1 &&
millis() - lastTapTime > tapWindow`) toggles `footswitchOn` between the
listening and the playback configuration. -/
def tapBranches (s2 : State) (now : Nat) : State × Option TapEvent :=
  if s2.tapCount ≥ 2 then
    ({ s2 with footswitchOn := false, waitingForSignal := false, recording := false,
               playingLoop := false, loopBuffer := fun _ => 0, tapCount := 0,
               readIndex := 0, writeIndex := 0, loopStart := 0, loopEnd := 0 },
     some TapEvent.double)
  else if s2.tapCount = 1 ∧ usub now s2.lastTapTime > tapWindow then
    if !s2.footswitchOn then
      ({ s2 with tapCount := 0, footswitchOn := true, waitingForSignal := true,
                 recording := false },
       some TapEvent.single)
    else
      ({ s2 with tapCount := 0, footswitchOn := false, playingLoop := true,
                 recording := false },
       some TapEvent.single)
  else (s2, none)

/-- `handleFootswitch()` of `src/unnamed/part_000` (lines 126-182): debounce
and tap counting, then the double-tap bypass branch and the single-tap
toggle branch.  Calls into the audio library (`inputFader`, `outputMixer`,
`recordQueue`, `Serial`) are external collaborators and are not modelled.
The emitted `TapEvent` marks which branch fired. -/
def handleFootswitch (s : State) (reading : Bool) (now : Nat) : State × Option TapEvent :=
  tapBranches (debounceTap s reading now) now

/-- Body of the `for (int i = 0; i < 128; i++)` loop of `playLoop()`
(`src/unnamed/part_000` lines 189-193), iterated `n` times: emit
`loopBuffer[curIndex++]`, wrap the cursor at the physical end of the buffer,
and jump back to `start` when the cursor reaches `end` while looping, unless
the region wraps (`needsToWrap`) and the cursor has not yet physically
wrapped (`alreadyWrapped`).  Both flags are computed once per 128-sample
block by `playLoop` and stay frozen for the whole block, exactly as in the
source.  Returns the emitted buffer indices and the final cursor. -/
def playBlockAux (start endIdx : Nat) (needsToWrap alreadyWrapped looping : Bool) :
    Nat → Nat → List Nat × Nat
  | 0, cur => ([], cur)
  | n + 1, cur =>
    let idx := cur
    let cur1 := cur + 1
    let cur2 := if cur1 ≥ BUFFER_SAMPLES then 0 else cur1
    let cur3 := if looping ∧ cur2 ≥ endIdx ∧ (needsToWrap = false ∨ alreadyWrapped = true)
      then start else cur2
    let rest := playBlockAux start endIdx needsToWrap alreadyWrapped looping n cur3
    (idx :: rest.1, rest.2)

/-- `playLoop()` of `src/unnamed/part_000` (lines 184-195): one 128-sample
block of playback.  `needsToWrap` and `alreadyWrapped` are computed once, at
block entry, from the region markers and the entry cursor.  Returns the
sequence of buffer indices fed to the play queue and the updated cursor. -/
def playLoop (start endIdx curIndex : Nat) (looping : Bool) : List Nat × Nat :=
  let needsToWrap : Bool := decide (start > endIdx)
  let alreadyWrapped : Bool := needsToWrap && decide (curIndex < start)
  playBlockAux start endIdx needsToWrap alreadyWrapped looping 128 curIndex

/-- Repeated invocation of `playLoop` with `looping = true`: `n` consecutive
128-sample blocks starting from cursor `cur`; the concatenated index
sequence and the final cursor. -/
def playBlocks (start endIdx : Nat) : Nat → Nat → List Nat × Nat
  | 0, cur => ([], cur)
  | n + 1, cur =>
    let b := playLoop start endIdx cur true
    let rest := playBlocks start endIdx n b.2
    (b.1 ++ rest.1, rest.2)

/-- The index sequence the specification claims for a wrapping region
(`loopStart > loopEnd`): `loopStart, loopStart+1, ..., capacity-1, 0, 1,
..., loopEnd-1, loopStart, ...` repeating.  Taken from the spec's words, for
comparison against what `playLoop` produces. -/
def specRegionSeq (capacity start endIdx n : Nat) : Nat :=
  let tail := capacity - start
  let r := n % (tail + endIdx)
  if r < tail then start + r else r - tail

/-- A mid-session state exercising the double-tap branch: the pedal is
recording over a playing loop with three accumulated layers, a loop region
is set, and one accepted tap was registered at `millis() = 1000`. -/
def recordingState : State :=
  { initState with
      curLayer := 3, recording := true, playingLoop := true, footswitchOn := true,
      waitingForSignal := false,
      writeIndex := 12345, readIndex := 777, loopStart := 100, loopEnd := 5000,
      loopBuffer := fun i => if i = 0 then 42 else 0,
      previousRMS := 1 / 10,
      debouncedState := false, lastFootswitchState := true,
      lastDebounceTime := 900, lastTapTime := 1000, tapCount := 1 }

/-- The mid-recording retrigger condition of `src/unnamed/part_000` line 222:
`recording && level > previousRMS * 2.5f` (the guard `level >
signalThreshold` of the surrounding branch is handled in `analyzerStep`). -/
def onsetRetrigger (s : State) (level : ℚ) : Bool :=
  s.recording && decide (level > s.previousRMS * (5 / 2))

/-- The input-detection section of `loop()` in `src/unnamed/part_000` (lines
218-246), executed when `inputAnalyzer.available()` delivers a fresh RMS
`level`: reset the silence timer above the threshold; on a fresh trigger
(`waitingForSignal`) or a mid-recording retrigger (`onsetRetrigger`) close
the old region when a loop is playing, reset the layer counter, re-position
`writeIndex` a fade-padding distance ahead of `readIndex`, and enter
recording; finally always record the level into `previousRMS`.
`uint32_t` subtraction in the `loopStart` computation wraps mod `2^32` as in
the source; the float product `SAMPLE_RATE * fadeDuration * BUFFER_PADDING`
is the constant `fadePadding` (see its docstring for the float rounding).
Fader and record-queue calls are external and not modelled. -/
def analyzerStep (s : State) (level : ℚ) (now : Nat) : State :=
  let s1 : State :=
    if level > signalThreshold then
      let sa := { s with silenceTimerStart := now }
      if sa.waitingForSignal ∨ onsetRetrigger sa level then
        let sb :=
          if sa.playingLoop then
            { sa with loopEnd := sa.writeIndex,
                      loopStart := ((usub sa.writeIndex (SAMPLE_RATE * sa.loopDuration)
                          + BUFFER_SAMPLES) % 4294967296) % BUFFER_SAMPLES }
          else sa
        { sb with curLayer := 0,
                  writeIndex := (sb.readIndex + fadePadding) % BUFFER_SAMPLES,
                  waitingForSignal := false, recording := true, loopTimerStart := now }
      else sa
    else s
  { s1 with previousRMS := level }

end Part000

namespace RingWrite

/-- One iteration of the recording loop of `src/unnamed/part_000` (lines
282-284): `loopBuffer[writeIndex++] = buffer[i]; if (writeIndex >=
BUFFER_SAMPLES) writeIndex = 0;`.  The state is the pair (write index,
buffer contents); the physical capacity (`BUFFER_SAMPLES` in the source) is
a parameter so the theorem covers the ring for any positive capacity. -/
def writeStep (capacity : Nat) (st : Nat × (Nat → Int)) (sample : Int) : Nat × (Nat → Int) :=
  let w1 := st.1 + 1
  (if w1 ≥ capacity then 0 else w1, Function.update st.2 st.1 sample)

/-- The recording write path applied to a whole stream of samples: the
source consumes the stream in blocks of 128, but each sample goes through
exactly the per-sample body `writeStep`, so the fold over the full stream is
the concatenation of those blocks. -/
def writeSamples (capacity : Nat) (samples : List Int) (st : Nat × (Nat → Int)) :
    Nat × (Nat → Int) :=
  samples.foldl (writeStep capacity) st

end RingWrite

namespace JustLooper

/-- `const int SAMPLE_RATE = 44100;` -/
def SAMPLE_RATE : Nat := 44100

/-- `const int MAX_LOOP_DURATION = 3000;` -/
def MAX_LOOP_DURATION : Nat := 3000

/-- `const int MAX_LOOP_FADE_DURATION = 1500;` -/
def MAX_LOOP_FADE_DURATION : Nat := 1500

/-- `const int BUFFER_SAMPLES = SAMPLE_RATE * (MAX_LOOP_DURATION +
MAX_LOOP_FADE_DURATION * BUFFER_PADDING);` with `BUFFER_PADDING = 1.25f` —
the same single-precision computation as in `part_000`; `44100 * 4875.0f`
rounds to `214987504` (see `Part000.BUFFER_SAMPLES`). -/
def BUFFER_SAMPLES : Nat := 214987504

/-- `int fadeDuration = MAX_FADE_DURATION;` — the initializer names the
constant `MAX_FADE_DURATION`, which this iteration declares as
`MAX_LOOP_FADE_DURATION = 1500` (one of several slips in this draft); the
value is 1500 ms. -/
def fadeDuration : Nat := MAX_LOOP_FADE_DURATION

/-- `SAMPLE_RATE * fadeDuration * BUFFER_PADDING` reduced to an integer:
`66150000 * 1.25f` rounds to `82687504` in float (see
`Part000.fadePadding`). -/
def fadePadding : Nat := 82687504

/-- The `writeIndex` re-positioning of `src/just_looper.ino` line 249:
`writeIndex = readIndex + (SAMPLE_RATE * fadeDuration * BUFFER_PADDING) %
BUFFER_SAMPLES;`.  C precedence binds `%` before `+`, so only the padding
term is reduced modulo the capacity and the sum is not.  (As written the
line does not even compile — `%` is not defined on a float operand; the
modulo is modelled on the integer value of the padding, as the revision of
this line in `part_000` line 236 does after its `(uint32_t)` cast.) -/
def retriggerWriteIndex (readIndex : Nat) : Nat :=
  readIndex + fadePadding % BUFFER_SAMPLES

end JustLooper

namespace Padomatic

/-- `const unsigned long debounceDelay = 25;` -/
def debounceDelay : Nat := 25

/-- `const float signalThreshold = 0.02;` -/
def signalThreshold : ℚ := 1 / 50

/-- `const int silentDuration = 500;` -/
def silentDuration : Nat := 500

/-- `const uint32_t swellDuration = 1500;` -/
def swellDuration : Nat := 1500

/-- `const int SAMPLE_RATE = 44100;` -/
def SAMPLE_RATE : Nat := 44100

/-- `const int RECORD_SECONDS = 3;` -/
def RECORD_SECONDS : Nat := 3

/-- `const int BUFFER_SIZE = SAMPLE_RATE * RECORD_SECONDS;` -/
def BUFFER_SIZE : Nat := SAMPLE_RATE * RECORD_SECONDS

/-- Global mutable state of `src/padomatic.ino` (the single-buffer variant).
`elapsedMillis` timers (`silenceTimer`, `recordTimer`) are modelled by their
last reset timestamp, compared against the `millis()` value of the current
tick; the `static float rms` of `loop()` is part of the state. -/
structure State where
  waitingForSignal : Bool
  swelling : Bool
  recordingActive : Bool
  loopingActive : Bool
  swellStartTime : Nat
  loopBuffer : Nat → Int
  bufferWriteIndex : Nat
  playbackIndex : Nat
  silenceStart : Nat
  recordStart : Nat
  rms : ℚ
  lastFootswitchReading : Bool
  debouncedFootswitchState : Bool
  lastDebounceTime : Nat

/-- The footswitch section of `loop()` in `src/padomatic.ino` (lines
111-135): classic debounce; on an accepted `HIGH -> LOW` transition the
listening branch runs only when neither `recordingActive` nor
`loopingActive` is set. -/
def footswitchPhase (s : State) (reading : Bool) (now : Nat) : State :=
  let s1 : State :=
    if reading = s.lastFootswitchReading then s else { s with lastDebounceTime := now }
  let s2 : State :=
    if usub now s1.lastDebounceTime > debounceDelay ∧ reading ≠ s1.debouncedFootswitchState then
      let sa := { s1 with debouncedFootswitchState := reading }
      if reading = false then
        if sa.recordingActive = false ∧ sa.loopingActive = false then
          { sa with waitingForSignal := true, bufferWriteIndex := 0, recordStart := now }
        else sa
      else sa
    else s1
  { s2 with lastFootswitchReading := reading }

/-- Signal detection while waiting (`src/padomatic.ino` lines 145-151):
`if (waitingForSignal && fabs(inputSample) > signalThreshold)` start the
swell and recording. -/
def detectPhase (now : Nat) (s : State) (inputSample : ℚ) : State :=
  if s.waitingForSignal ∧ |inputSample| > signalThreshold then
    { s with waitingForSignal := false, recordingActive := true,
             swellStartTime := now, swelling := true, silenceStart := now }
  else s

/-- The value of `processedSample` (`src/padomatic.ino` lines 154-158):
the input scaled by the swell gain while swelling (`1` once the swell
duration has elapsed — `computeSwellGain` returns the literal `1.0f` there),
the plain input while recording or looping, else silence.  `g` is the value
returned by `computeSwellGain()` for the current instant while the swell is
in progress (its logarithmic value lives in `ℝ`, see
`Swell.computeSwellGain`; the control flow only compares integer times,
modelled exactly). -/
def processedValue (now : Nat) (g : ℚ) (s1 : State) (inputSample : ℚ) : ℚ :=
  if s1.swelling then
    (if usub now s1.swellStartTime ≥ swellDuration then inputSample else inputSample * g)
  else if s1.recordingActive ∨ s1.loopingActive then inputSample
  else 0

/-- The side effect of `computeSwellGain()` (`src/padomatic.ino` lines
75-79): querying the gain at or after the swell duration clears the
`swelling` flag. -/
def swellUpdate (now : Nat) (s1 : State) : State :=
  if s1.swelling ∧ usub now s1.swellStartTime ≥ swellDuration then
    { s1 with swelling := false }
  else s1

/-- Silence detection (`src/padomatic.ino` lines 161-165): the EMA of the
squared processed sample; the comparison `sqrtf(rms) > signalThreshold` is
embedded as `rms > signalThreshold^2`, equivalent for the non-negative `rms`
this update rule produces. -/
def rmsUpdate (now : Nat) (s2 : State) (processed : ℚ) : State :=
  let rmsNew : ℚ := (99 / 100) * s2.rms + (1 / 100) * (processed * processed)
  if rmsNew > signalThreshold ^ 2 then { s2 with rms := rmsNew, silenceStart := now }
  else { s2 with rms := rmsNew }

/-- Recording to the buffer (`src/padomatic.ino` lines 168-172): store the
processed sample (cast back to `int16_t`) while recording and below the
buffer capacity; the write index never wraps in this variant. -/
def recordPhase (s4 : State) (processed : ℚ) : State :=
  if s4.recordingActive ∧ s4.bufferWriteIndex < BUFFER_SIZE then
    { s4 with loopBuffer := Function.update s4.loopBuffer s4.bufferWriteIndex
                  (truncQ (processed * 32767)),
              bufferWriteIndex := s4.bufferWriteIndex + 1 }
  else s4

/-- One iteration of the audio-processing loop of `src/padomatic.ino` (lines
140-172) for a raw `int16_t` sample `b`: signal detection while waiting,
swell processing, EMA silence detection and recording into the buffer. -/
def processSample (now : Nat) (g : ℚ) (s : State) (b : Int) : State :=
  let inputSample : ℚ := (b : ℚ) / 32768
  let s1 := detectPhase now s inputSample
  let processed := processedValue now g s1 inputSample
  recordPhase (rmsUpdate now (swellUpdate now s1) processed) processed

/-- One step of the playback cursor (`src/padomatic.ino` lines 199-200):
`playbackIndex++; if (playbackIndex >= BUFFER_SIZE) playbackIndex = 0;`. -/
def advancePlayback (p : Nat) : Nat := if p + 1 ≥ BUFFER_SIZE then 0 else p + 1

/-- The playback section of `loop()` (`src/padomatic.ino` lines 196-203):
when looping, emit 128 samples and advance the cursor 128 times with
wraparound.  The emitted samples go to the play queue (external); only the
cursor movement affects the state. -/
def playbackPhase (s : State) : State :=
  if s.loopingActive then { s with playbackIndex := advancePlayback^[128] s.playbackIndex }
  else s

/-- The audio-processing section of `loop()` (`src/padomatic.ino` lines
138-175): when a 128-sample block is available, run every sample through the
per-sample body. -/
def audioPhase (now : Nat) (g : ℚ) (audio : Option (List Int)) (s : State) : State :=
  match audio with
  | none => s
  | some block => block.foldl (processSample now g) s

/-- The recording timeout of `loop()` (`src/padomatic.ino` lines 178-184):
`if (recordingActive && recordTimer > RECORD_SECONDS * 1000)` freeze the
loop and start playback. -/
def recordTimeoutPhase (s : State) (now : Nat) : State :=
  if s.recordingActive ∧ usub now s.recordStart > RECORD_SECONDS * 1000 then
    { s with recordingActive := false, loopingActive := true, playbackIndex := 0 }
  else s

/-- The silence-detection freeze of `loop()` (`src/padomatic.ino` lines
187-193): `if (recordingActive && silenceTimer > silentDuration)` freeze the
loop and start playback. -/
def silenceFreezePhase (s : State) (now : Nat) : State :=
  if s.recordingActive ∧ usub now s.silenceStart > silentDuration then
    { s with recordingActive := false, loopingActive := true, playbackIndex := 0 }
  else s

/-- One whole invocation of `loop()` of `src/padomatic.ino`: footswitch
handling, then the audio block (when `audioQueue.available()`), then the
recording timeout, the silence freeze, and playback.  `reading` is the
footswitch pin level, `now` the `millis()` value for this tick, `audio` the
128-sample input block when one is available, and `g` the swell-curve value
used by `computeSwellGain()` during this tick. -/
def loop (s : State) (reading : Bool) (now : Nat) (audio : Option (List Int)) (g : ℚ) : State :=
  playbackPhase (silenceFreezePhase
    (recordTimeoutPhase (audioPhase now g audio (footswitchPhase s reading now)) now) now)

/-- The external inputs consumed by one invocation of `loop()`. -/
structure TickInput where
  reading : Bool
  now : Nat
  audio : Option (List Int)
  gain : ℚ

/-- Repeated invocations of `loop()` over a stream of tick inputs. -/
def run (s : State) (inputs : List TickInput) : State :=
  inputs.foldl (fun st i => loop st i.reading i.now i.audio i.gain) s

/-- A frozen loop: playback is active and neither the recording path nor the
listening flag is set — the state `padomatic.ino` reaches when a loop
freezes on silence or on the record timeout. -/
def Frozen (s : State) : Prop :=
  s.loopingActive = true ∧ s.recordingActive = false ∧ s.waitingForSignal = false

instance (s : State) : Decidable (Frozen s) := by
  unfold Frozen; infer_instance

/-- A concrete frozen state: a loop has been recorded and playback is
running. -/
def frozenState : State where
  waitingForSignal := false
  swelling := false
  recordingActive := false
  loopingActive := true
  swellStartTime := 0
  loopBuffer := fun i => if i < 7 then 100 else 0
  bufferWriteIndex := 7
  playbackIndex := 3
  silenceStart := 900
  recordStart := 0
  rms := 0
  lastFootswitchReading := true
  debouncedFootswitchState := true
  lastDebounceTime := 0

end Padomatic

namespace PingPong

/-- Arduino `constrain(amt, low, high)`:
`(amt < low ? low : (amt > high ? high : amt))`. -/
def constrain (x lo hi : Int) : Int := if x < lo then lo else if x > hi then hi else x

/-- The unconstrained `int32_t mixed` value of the playback loop in the
knob-controlled ping-pong variant (second program of `src/unnamed/part_002`,
lines 404-425): the crossfade mix of the active and fading buffer samples
(or the active sample alone when not crossfading), truncated to `int32_t`,
scaled by `masterVolume` (again via float, truncated back), plus the
passthrough `(int16_t)(lastInputSample * 32767.0f)` when the pedal state is
`LOOPING`.  `fadeOutGain = 1.0f - fadeInGain` as in the source.  All values
stay far below `2^31`, so `int32_t` never wraps and is modelled as `Int`. -/
def loopMixPre (crossfading : Bool) (sampleA sampleB : Int)
    (fadeInGain masterVolume : ℚ) (isLooping : Bool) (lastInputSample : ℚ) : Int :=
  let fadeOutGain : ℚ := 1 - fadeInGain
  let mixed : Int :=
    if crossfading then truncQ ((sampleA : ℚ) * fadeInGain + (sampleB : ℚ) * fadeOutGain)
    else sampleA
  let mixed : Int := truncQ ((mixed : ℚ) * masterVolume)
  if isLooping then mixed + truncQ (lastInputSample * 32767) else mixed

/-- The sample actually stored into `outBuffer[i]` (line 426):
`constrain(mixed, -32768, 32767)`. -/
def loopMixSample (crossfading : Bool) (sampleA sampleB : Int)
    (fadeInGain masterVolume : ℚ) (isLooping : Bool) (lastInputSample : ℚ) : Int :=
  constrain (loopMixPre crossfading sampleA sampleB fadeInGain masterVolume
    isLooping lastInputSample) (-32768) 32767

end PingPong

/-! ### Theorems -/

theorem log10_pos : (0 : ℝ) < Real.log 10 := Real.log_pos (by norm_num)

theorem computeSwellGain_nonneg (e d : ℕ) : 0 ≤ Swell.computeSwellGain e d := by
  unfold Swell.computeSwellGain
  split
  · exact zero_le_one
  · refine div_nonneg (Real.log_nonneg ?_) log10_pos.le
    have h9 : (0 : ℝ) ≤ 9 * ((e : ℝ) / (d : ℝ)) := by positivity
    linarith

theorem computeSwellGain_le_one (e d : ℕ) : Swell.computeSwellGain e d ≤ 1 := by
  unfold Swell.computeSwellGain
  split
  · exact le_refl 1
  · rename_i h
    have hed : e < d := Nat.lt_of_not_le h
    have hd : (0 : ℝ) < d := by exact_mod_cast lt_of_le_of_lt (Nat.zero_le e) hed
    have ht1 : (e : ℝ) / (d : ℝ) ≤ 1 := (div_le_one hd).mpr (by exact_mod_cast hed.le)
    have ht0 : (0 : ℝ) ≤ (e : ℝ) / (d : ℝ) := by positivity
    refine (div_le_one log10_pos).mpr (Real.log_le_log (by linarith) (by linarith))

theorem computeSwellGain_mono (d e1 e2 : ℕ) (h : e1 ≤ e2) :
    Swell.computeSwellGain e1 d ≤ Swell.computeSwellGain e2 d := by
  by_cases h2 : d ≤ e2
  · have hone : Swell.computeSwellGain e2 d = 1 := by unfold Swell.computeSwellGain; simp [h2]
    rw [hone]
    exact computeSwellGain_le_one e1 d
  · have h1 : ¬ d ≤ e1 := fun hle => h2 (hle.trans h)
    unfold Swell.computeSwellGain
    rw [if_neg h1, if_neg h2]
    have hd : (0 : ℝ) < d := by exact_mod_cast lt_of_le_of_lt (Nat.zero_le e2) (Nat.lt_of_not_le h2)
    have ht : (e1 : ℝ) / (d : ℝ) ≤ (e2 : ℝ) / (d : ℝ) :=
      (div_le_div_iff_of_pos_right hd).mpr (by exact_mod_cast h)
    have ht0 : (0 : ℝ) ≤ (e1 : ℝ) / (d : ℝ) := by positivity
    exact (div_le_div_iff_of_pos_right log10_pos).mpr (Real.log_le_log (by linarith) (by linarith))

/-- C6: for any fixed swell duration, the gain `ln(1 + 9t)/ln 10` with
`t = clamp(elapsed/duration, 0, 1)` computed by `computeSwellGain` is
monotonically non-decreasing in the elapsed time, lies in `[0, 1]`, and is
exactly `1` for every query at or after `elapsed = duration`. -/
theorem c6_swell_envelope (duration e1 e2 : ℕ) (h : e1 ≤ e2) :
    Swell.computeSwellGain e1 duration ≤ Swell.computeSwellGain e2 duration ∧
    0 ≤ Swell.computeSwellGain e1 duration ∧
    Swell.computeSwellGain e2 duration ≤ 1 ∧
    (∀ e, duration ≤ e → Swell.computeSwellGain e duration = 1) :=
  ⟨computeSwellGain_mono duration e1 e2 h,
   computeSwellGain_nonneg e1 duration,
   computeSwellGain_le_one e2 duration,
   fun e he => by unfold Swell.computeSwellGain; simp [he]⟩

theorem c6_swell_envelope_witness :
    (2 : ℕ) ≤ 3 ∧ Swell.computeSwellGain 1500 1500 = 1 :=
  ⟨by decide, (c6_swell_envelope 1500 2 3 (by decide)).2.2.2 1500 (le_refl 1500)⟩

/-- C7: at every instant of a crossfade the gain applied to new material is
the swell curve and the gain applied to the old looped material is exactly
`1` minus that value, so the two gains sum to exactly `1`. -/
theorem c7_crossfade_conservation (swelling : Bool) (elapsed duration : ℕ) :
    (Swell.fadeGains swelling elapsed duration).1
        + (Swell.fadeGains swelling elapsed duration).2 = 1 ∧
    (Swell.fadeGains true elapsed duration).1 = Swell.computeSwellGain elapsed duration := by
  unfold Swell.fadeGains
  refine ⟨by ring, by simp⟩

theorem constrain_mem (x lo hi : Int) (h : lo ≤ hi) :
    lo ≤ PingPong.constrain x lo hi ∧ PingPong.constrain x lo hi ≤ hi := by
  unfold PingPong.constrain
  split_ifs with h1 h2 <;> omega

/-- C10: in the knob-controlled ping-pong variant, every sample written to
the output block during looping is the crossfade mix of the active and
fading buffers scaled by the master volume, plus the input passthrough when
in the Looping state, constrained to `[-32768, 32767]` before the store, so
the widened 32-bit mix never reaches the 16-bit output out of range. -/
theorem c10_output_in_range (crossfading isLooping : Bool) (sampleA sampleB : Int)
    (fadeInGain masterVolume lastInputSample : ℚ) :
    -32768 ≤ PingPong.loopMixSample crossfading sampleA sampleB fadeInGain masterVolume
        isLooping lastInputSample ∧
    PingPong.loopMixSample crossfading sampleA sampleB fadeInGain masterVolume
        isLooping lastInputSample ≤ 32767 ∧
    PingPong.loopMixSample crossfading sampleA sampleB fadeInGain masterVolume
        isLooping lastInputSample
      = PingPong.constrain (PingPong.loopMixPre crossfading sampleA sampleB fadeInGain
          masterVolume isLooping lastInputSample) (-32768) 32767 := by
  have hb := constrain_mem (PingPong.loopMixPre crossfading sampleA sampleB fadeInGain
    masterVolume isLooping lastInputSample) (-32768) 32767 (by omega)
  exact ⟨hb.1, hb.2, rfl⟩

theorem add_mod_ne_self (x d n : Nat) (hx : x < n) (hd0 : 0 < d) (hdn : d < n) :
    (x + d) % n ≠ x := by
  intro hEq
  have h1 : x ≡ x + d [MOD n] := by
    unfold Nat.ModEq
    rw [Nat.mod_eq_of_lt hx, hEq]
  have h2 : n ∣ d := by
    have := (Nat.modEq_iff_dvd' (Nat.le_add_right x d)).mp h1
    simpa using this
  have := Nat.le_of_dvd hd0 h2
  omega

theorem writeStep_fst (capacity : Nat) (st : Nat × (Nat → Int)) (x : Int)
    (h : st.1 < capacity) :
    (RingWrite.writeStep capacity st x).1 = (st.1 + 1) % capacity := by
  unfold RingWrite.writeStep
  dsimp only
  split_ifs with h1
  · have hc : st.1 + 1 = capacity := by omega
    simp [hc]
  · rw [Nat.mod_eq_of_lt (by omega)]

theorem writeStep_fst_lt (capacity : Nat) (st : Nat × (Nat → Int)) (x : Int)
    (hc : 0 < capacity) (h : st.1 < capacity) :
    (RingWrite.writeStep capacity st x).1 < capacity := by
  rw [writeStep_fst capacity st x h]
  exact Nat.mod_lt _ hc

theorem writeSamples_cons (capacity : Nat) (a : Int) (l : List Int)
    (st : Nat × (Nat → Int)) :
    RingWrite.writeSamples capacity (a :: l) st
      = RingWrite.writeSamples capacity l (RingWrite.writeStep capacity st a) := rfl

theorem writeSamples_fst (capacity : Nat) (hc : 0 < capacity) :
    ∀ (l : List Int) (st : Nat × (Nat → Int)), st.1 < capacity →
      (RingWrite.writeSamples capacity l st).1 = (st.1 + l.length) % capacity := by
  intro l
  induction l with
  | nil =>
    intro st h
    simp [RingWrite.writeSamples, Nat.mod_eq_of_lt h]
  | cons a t ih =>
    intro st h
    rw [writeSamples_cons, ih _ (writeStep_fst_lt capacity st a hc h),
      writeStep_fst capacity st a h, Nat.mod_add_mod]
    congr 1
    simp
    omega

theorem writeSamples_preserve (capacity : Nat) (hc : 0 < capacity) :
    ∀ (l : List Int) (st : Nat × (Nat → Int)) (i : Nat), st.1 < capacity →
      (∀ u, u < l.length → (st.1 + u) % capacity ≠ i) →
      (RingWrite.writeSamples capacity l st).2 i = st.2 i := by
  intro l
  induction l with
  | nil => intro st i _ _; rfl
  | cons a t ih =>
    intro st i h hmiss
    have h0 : st.1 ≠ i := by
      have := hmiss 0 (by simp)
      rwa [Nat.add_zero, Nat.mod_eq_of_lt h] at this
    rw [writeSamples_cons, ih _ i (writeStep_fst_lt capacity st a hc h) ?_]
    · unfold RingWrite.writeStep
      exact Function.update_noteq (Ne.symm h0) a st.2
    · intro u hu
      rw [writeStep_fst capacity st a h, Nat.mod_add_mod]
      have harith : st.1 + 1 + u = st.1 + (u + 1) := by omega
      rw [harith]
      exact hmiss (u + 1) (by simpa using Nat.succ_lt_succ hu)

theorem writeSamples_last (capacity : Nat) (hc : 0 < capacity) :
    ∀ (l : List Int) (st : Nat × (Nat → Int)) (t : Nat), st.1 < capacity →
      t < l.length → l.length - t ≤ capacity →
      (RingWrite.writeSamples capacity l st).2 ((st.1 + t) % capacity) = l.getD t 0 := by
  intro l
  induction l with
  | nil => intro st t _ ht _; simp at ht
  | cons a tl ih =>
    intro st t h ht hlen
    cases t with
    | zero =>
      rw [writeSamples_cons, Nat.add_zero, Nat.mod_eq_of_lt h]
      have hpres := writeSamples_preserve capacity hc tl (RingWrite.writeStep capacity st a)
        st.1 (writeStep_fst_lt capacity st a hc h) ?_
      · rw [hpres]
        unfold RingWrite.writeStep
        simp [Function.update_same]
      · intro u hu
        rw [writeStep_fst capacity st a h, Nat.mod_add_mod]
        have harith : st.1 + 1 + u = st.1 + (u + 1) := by omega
        rw [harith]
        refine add_mod_ne_self st.1 (u + 1) capacity h (by omega) ?_
        simp at hlen
        omega
    | succ u =>
      rw [writeSamples_cons]
      have harith : (st.1 + (u + 1)) % capacity
          = ((RingWrite.writeStep capacity st a).1 + u) % capacity := by
        rw [writeStep_fst capacity st a h, Nat.mod_add_mod]
        congr 1
        omega
      rw [harith, ih _ u (writeStep_fst_lt capacity st a hc h) (by simpa using ht)
        (by simp at hlen ⊢; omega)]
      simp

/-- C3: writing `capacity + k` samples through the recording write path of
`src/unnamed/part_000` (lines 282-284), starting from `writeIndex = 0`,
leaves `writeIndex = k mod capacity`, and the buffer contents are exactly
the last `capacity` samples written, in order (sample `k + t` of the stream
sits at index `(k + t) mod capacity`); writing past `capacity` always wraps
to the beginning and the total function never stops writing or throws. -/
theorem c3_ring_wraparound (capacity k : Nat) (samples : List Int) (buf0 : Nat → Int)
    (hc : 0 < capacity) (hlen : samples.length = capacity + k) :
    (RingWrite.writeSamples capacity samples (0, buf0)).1 = k % capacity ∧
    ∀ t, t < capacity →
      (RingWrite.writeSamples capacity samples (0, buf0)).2 ((k + t) % capacity)
        = samples.getD (k + t) 0 := by
  constructor
  · rw [writeSamples_fst capacity hc samples (0, buf0) hc, hlen]
    simp [Nat.add_mod_left]
  · intro t ht
    have hlast := writeSamples_last capacity hc samples (0, buf0) (k + t) hc
      (by omega) (by omega)
    simpa using hlast

theorem c3_ring_wraparound_witness :
    0 < 3 ∧ ([10, 20, 30, 40, 50] : List Int).length = 3 + 2 ∧
    (RingWrite.writeSamples 3 [10, 20, 30, 40, 50] (0, fun _ => 0)).1 = 2 % 3 ∧
    (RingWrite.writeSamples 3 [10, 20, 30, 40, 50] (0, fun _ => 0)).2 ((2 + 1) % 3)
      = ([10, 20, 30, 40, 50] : List Int).getD (2 + 1) 0 :=
  ⟨by decide, by decide,
   (c3_ring_wraparound 3 2 [10, 20, 30, 40, 50] (fun _ => 0) (by decide) (by decide)).1,
   (c3_ring_wraparound 3 2 [10, 20, 30, 40, 50] (fun _ => 0) (by decide) (by decide)).2
     1 (by decide)⟩

/-- C4: the `writeIndex` re-positioning of `src/just_looper.ino` line 249
evaluated at `readIndex = 132300000` (a legal cursor value, below the
capacity): because C precedence binds `%` only to the padding term, the
result equals the capacity itself, violating `writeIndex < BUFFER_SAMPLES`
— the subsequent `loopBuffer[writeIndex++]` write targets an out-of-bounds
slot.  The same computation in `src/unnamed/part_000` line 236 reduces the
whole sum modulo the capacity and stays in range. -/
theorem c4_write_index_escapes_capacity :
    JustLooper.retriggerWriteIndex 132300000 = JustLooper.BUFFER_SAMPLES ∧
    132300000 < JustLooper.BUFFER_SAMPLES ∧
    ¬ JustLooper.retriggerWriteIndex 132300000 < JustLooper.BUFFER_SAMPLES :=
  ⟨by decide, by decide, by decide⟩

/-- C8 counterexample: `previousRMS` of `src/unnamed/part_000` is
initialized to `0.0f` (line 99), not seeded from the first computed level:
at the moment the first level (here `1/2`) reaches the onset comparison the
stored baseline is `0`, not that level. -/
theorem c8_previous_rms_starts_at_zero :
    Part000.initState.previousRMS = 0 ∧ Part000.initState.previousRMS ≠ (1 / 2 : ℚ) := by
  constructor
  · rfl
  · intro h
    rw [show Part000.initState.previousRMS = 0 from rfl] at h
    norm_num at h

/-- C8 (amended): the onset-while-active comparison of
`src/unnamed/part_000` line 222 cannot fire on the very first computed level
of a session — not because `previousRMS` is seeded from that level (it is
initialized to zero), but because `recording` is still `false` until some
level has triggered recording; and after the first level is processed
`previousRMS` holds exactly that level, so every later comparison uses the
true previous level. -/
theorem c8_no_retrigger_on_first_level (level : ℚ) (now : Nat) :
    Part000.onsetRetrigger Part000.initState level = false ∧
    (Part000.analyzerStep Part000.initState level now).previousRMS = level :=
  ⟨rfl, rfl⟩

theorem usub_self (a : Nat) : usub a a = 0 := by
  unfold usub
  omega

theorem debounceTap_tapCount (s : Part000.State) (reading : Bool) (now : Nat) :
    (Part000.acceptedEdge s reading now →
      (usub now s.lastTapTime < Part000.tapWindow →
        (Part000.debounceTap s reading now).tapCount = s.tapCount + 1) ∧
      (¬ usub now s.lastTapTime < Part000.tapWindow →
        (Part000.debounceTap s reading now).tapCount = 1) ∧
      (Part000.debounceTap s reading now).lastTapTime = now) ∧
    (¬ Part000.acceptedEdge s reading now →
      (Part000.debounceTap s reading now).tapCount = s.tapCount ∧
      (Part000.debounceTap s reading now).lastTapTime = s.lastTapTime) := by
  simp only [Part000.acceptedEdge, Part000.debounceTap]
  split_ifs <;> simp_all

theorem debounceTap_control_fields (s : Part000.State) (reading : Bool) (now : Nat) :
    (Part000.debounceTap s reading now).curLayer = s.curLayer ∧
    (Part000.debounceTap s reading now).footswitchOn = s.footswitchOn ∧
    (Part000.debounceTap s reading now).waitingForSignal = s.waitingForSignal ∧
    (Part000.debounceTap s reading now).recording = s.recording ∧
    (Part000.debounceTap s reading now).playingLoop = s.playingLoop ∧
    (Part000.debounceTap s reading now).writeIndex = s.writeIndex ∧
    (Part000.debounceTap s reading now).readIndex = s.readIndex ∧
    (Part000.debounceTap s reading now).loopStart = s.loopStart ∧
    (Part000.debounceTap s reading now).loopEnd = s.loopEnd ∧
    (Part000.debounceTap s reading now).loopBuffer = s.loopBuffer := by
  simp only [Part000.debounceTap]
  split_ifs <;> simp_all

theorem tapBranches_double_fields (t : Part000.State) (now : Nat)
    (h : (Part000.tapBranches t now).2 = some Part000.TapEvent.double) :
    (Part000.tapBranches t now).1.footswitchOn = false ∧
    (Part000.tapBranches t now).1.waitingForSignal = false ∧
    (Part000.tapBranches t now).1.recording = false ∧
    (Part000.tapBranches t now).1.playingLoop = false ∧
    (Part000.tapBranches t now).1.writeIndex = 0 ∧
    (Part000.tapBranches t now).1.readIndex = 0 ∧
    (Part000.tapBranches t now).1.loopStart = 0 ∧
    (Part000.tapBranches t now).1.loopEnd = 0 ∧
    (∀ i, (Part000.tapBranches t now).1.loopBuffer i = 0) ∧
    (Part000.tapBranches t now).1.curLayer = t.curLayer := by
  unfold Part000.tapBranches at h ⊢
  split_ifs at h ⊢ <;> simp_all

theorem tapBranches_cases (t : Part000.State) (now : Nat) :
    (t.tapCount ≥ 2 →
      (Part000.tapBranches t now).2 = some Part000.TapEvent.double ∧
      (Part000.tapBranches t now).1.tapCount = 0) ∧
    (t.tapCount = 1 → usub now t.lastTapTime > Part000.tapWindow →
      (Part000.tapBranches t now).2 = some Part000.TapEvent.single ∧
      (Part000.tapBranches t now).1.tapCount = 0) ∧
    (t.tapCount = 1 → ¬ usub now t.lastTapTime > Part000.tapWindow →
      (Part000.tapBranches t now).2 = none ∧
      (Part000.tapBranches t now).1.tapCount = 1) ∧
    (t.tapCount = 0 →
      (Part000.tapBranches t now).2 = none ∧
      (Part000.tapBranches t now).1.tapCount = 0) := by
  unfold Part000.tapBranches
  split_ifs <;> simp_all
  omega

theorem tapBranches_event_resets (t : Part000.State) (now : Nat) (e : Part000.TapEvent)
    (h : (Part000.tapBranches t now).2 = some e) :
    (Part000.tapBranches t now).1.tapCount = 0 := by
  unfold Part000.tapBranches at h ⊢
  split_ifs at h ⊢ <;> simp_all

/-- C1 counterexample: a double tap from a mid-recording state with three
accumulated layers fires the double-tap branch, yet leaves `curLayer = 3` —
the layer count is not reset to `0` by the branch. -/
theorem c1_layer_count_not_reset :
    (Part000.handleFootswitch Part000.recordingState false 1100).2
        = some Part000.TapEvent.double ∧
    (Part000.handleFootswitch Part000.recordingState false 1100).1.curLayer = 3 ∧
    (Part000.handleFootswitch Part000.recordingState false 1100).1.curLayer ≠ 0 := by
  refine ⟨by decide, by decide, by decide⟩

/-- C1 (amended): whenever the double-tap branch of `handleFootswitch` in
`src/unnamed/part_000` fires — from any state, including mid-recording over
a playing loop — the resulting state is bypassed (`footswitchOn`,
`waitingForSignal`, `recording`, `playingLoop` all false) with
`writeIndex = 0`, `readIndex = 0`, `loopStart = loopEnd = 0` and every
stored sample of the loop buffer cleared; the layer count `curLayer`,
however, is left unchanged rather than reset to `0`. -/
theorem c1_double_tap_reset (s : Part000.State) (reading : Bool) (now : Nat)
    (h : (Part000.handleFootswitch s reading now).2 = some Part000.TapEvent.double) :
    (Part000.handleFootswitch s reading now).1.footswitchOn = false ∧
    (Part000.handleFootswitch s reading now).1.waitingForSignal = false ∧
    (Part000.handleFootswitch s reading now).1.recording = false ∧
    (Part000.handleFootswitch s reading now).1.playingLoop = false ∧
    (Part000.handleFootswitch s reading now).1.writeIndex = 0 ∧
    (Part000.handleFootswitch s reading now).1.readIndex = 0 ∧
    (Part000.handleFootswitch s reading now).1.loopStart = 0 ∧
    (Part000.handleFootswitch s reading now).1.loopEnd = 0 ∧
    (∀ i, (Part000.handleFootswitch s reading now).1.loopBuffer i = 0) ∧
    (Part000.handleFootswitch s reading now).1.curLayer = s.curLayer := by
  unfold Part000.handleFootswitch at h ⊢
  have hd := tapBranches_double_fields (Part000.debounceTap s reading now) now h
  have hf := debounceTap_control_fields s reading now
  exact ⟨hd.1, hd.2.1, hd.2.2.1, hd.2.2.2.1, hd.2.2.2.2.1, hd.2.2.2.2.2.1,
    hd.2.2.2.2.2.2.1, hd.2.2.2.2.2.2.2.1, hd.2.2.2.2.2.2.2.2.1,
    hd.2.2.2.2.2.2.2.2.2.trans hf.1⟩

theorem c1_double_tap_reset_witness :
    (Part000.handleFootswitch Part000.recordingState false 1100).2
        = some Part000.TapEvent.double ∧
    (Part000.handleFootswitch Part000.recordingState false 1100).1.writeIndex = 0 ∧
    (Part000.handleFootswitch Part000.recordingState false 1100).1.curLayer
        = Part000.recordingState.curLayer :=
  ⟨by decide,
   (c1_double_tap_reset Part000.recordingState false 1100 (by decide)).2.2.2.2.1,
   (c1_double_tap_reset Part000.recordingState false 1100 (by decide)).2.2.2.2.2.2.2.2.2⟩

/-- C5: tap classification in `handleFootswitch` of `src/unnamed/part_000`:
an accepted falling edge increments `tapCount` only when it falls within
`tapWindow` of the previous accepted edge and otherwise resets it to `1`;
a `Double` event is emitted immediately when `tapCount` reaches `2` (in the
very invocation that accepts the second edge, without waiting out the
window); a `Single` event is emitted once `tapWindow` has elapsed since the
last edge with `tapCount = 1`; and `tapCount` returns to `0` after any
event. -/
theorem c5_tap_classification (s : Part000.State) (reading : Bool) (now : Nat) :
    (Part000.acceptedEdge s reading now → usub now s.lastTapTime < Part000.tapWindow →
      s.tapCount = 1 →
      (Part000.handleFootswitch s reading now).2 = some Part000.TapEvent.double ∧
      (Part000.handleFootswitch s reading now).1.tapCount = 0) ∧
    (Part000.acceptedEdge s reading now → usub now s.lastTapTime < Part000.tapWindow →
      s.tapCount = 0 →
      (Part000.handleFootswitch s reading now).2 = none ∧
      (Part000.handleFootswitch s reading now).1.tapCount = 1) ∧
    (Part000.acceptedEdge s reading now → ¬ usub now s.lastTapTime < Part000.tapWindow →
      (Part000.handleFootswitch s reading now).2 = none ∧
      (Part000.handleFootswitch s reading now).1.tapCount = 1) ∧
    (¬ Part000.acceptedEdge s reading now → s.tapCount = 1 →
      usub now s.lastTapTime > Part000.tapWindow →
      (Part000.handleFootswitch s reading now).2 = some Part000.TapEvent.single ∧
      (Part000.handleFootswitch s reading now).1.tapCount = 0) ∧
    (∀ e, (Part000.handleFootswitch s reading now).2 = some e →
      (Part000.handleFootswitch s reading now).1.tapCount = 0) := by
  unfold Part000.handleFootswitch
  have hdt := debounceTap_tapCount s reading now
  have htb := tapBranches_cases (Part000.debounceTap s reading now) now
  refine ⟨?_, ?_, ?_, ?_, ?_⟩
  · intro hacc hwin htc1
    have h2 : (Part000.debounceTap s reading now).tapCount = 2 := by
      rw [(hdt.1 hacc).1 hwin, htc1]
    exact htb.1 (by omega)
  · intro hacc hwin htc0
    have h1 : (Part000.debounceTap s reading now).tapCount = 1 := by
      rw [(hdt.1 hacc).1 hwin, htc0]
    have hlt : (Part000.debounceTap s reading now).lastTapTime = now := (hdt.1 hacc).2.2
    refine htb.2.2.1 h1 ?_
    rw [hlt, usub_self]
    simp [Part000.tapWindow]
  · intro hacc hwin
    have h1 : (Part000.debounceTap s reading now).tapCount = 1 := (hdt.1 hacc).2.1 hwin
    have hlt : (Part000.debounceTap s reading now).lastTapTime = now := (hdt.1 hacc).2.2
    refine htb.2.2.1 h1 ?_
    rw [hlt, usub_self]
    simp [Part000.tapWindow]
  · intro hacc htc1 hgt
    have h1 : (Part000.debounceTap s reading now).tapCount = 1 := by
      rw [(hdt.2 hacc).1, htc1]
    have hlt : (Part000.debounceTap s reading now).lastTapTime = s.lastTapTime :=
      (hdt.2 hacc).2
    exact htb.2.1 h1 (by rw [hlt]; exact hgt)
  · intro e he
    exact tapBranches_event_resets (Part000.debounceTap s reading now) now e he

theorem c5_tap_classification_witness :
    Part000.acceptedEdge Part000.recordingState false 1100 ∧
    usub 1100 Part000.recordingState.lastTapTime < Part000.tapWindow ∧
    Part000.recordingState.tapCount = 1 ∧
    (Part000.handleFootswitch Part000.recordingState false 1100).2
        = some Part000.TapEvent.double ∧
    (Part000.handleFootswitch Part000.recordingState false 1100).1.tapCount = 0 := by
  refine ⟨by decide, by decide, by decide, ?_, ?_⟩
  · exact ((c5_tap_classification Part000.recordingState false 1100).1
      (by decide) (by decide) (by decide)).1
  · exact ((c5_tap_classification Part000.recordingState false 1100).1
      (by decide) (by decide) (by decide)).2

theorem foldl_preserve {α β : Type} (P : α → Prop) (f : α → β → α)
    (h : ∀ a b, P a → P (f a b)) : ∀ (l : List β) (a : α), P a → P (List.foldl f a l) := by
  intro l
  induction l with
  | nil => exact fun a ha => ha
  | cons x t ih => exact fun a ha => ih (f a x) (h a x ha)

theorem footswitchPhase_flags (s : Padomatic.State) (reading : Bool) (now : Nat) :
    (Padomatic.footswitchPhase s reading now).loopingActive = s.loopingActive ∧
    (Padomatic.footswitchPhase s reading now).recordingActive = s.recordingActive ∧
    (s.loopingActive = true →
      (Padomatic.footswitchPhase s reading now).waitingForSignal = s.waitingForSignal) := by
  simp only [Padomatic.footswitchPhase]
  split_ifs <;> simp_all

theorem detectPhase_flags (now : Nat) (s : Padomatic.State) (x : ℚ) :
    (Padomatic.detectPhase now s x).loopingActive = s.loopingActive ∧
    (s.waitingForSignal = false → Padomatic.detectPhase now s x = s) := by
  unfold Padomatic.detectPhase
  split_ifs <;> simp_all

theorem swellUpdate_flags (now : Nat) (s : Padomatic.State) :
    (Padomatic.swellUpdate now s).loopingActive = s.loopingActive ∧
    (Padomatic.swellUpdate now s).recordingActive = s.recordingActive ∧
    (Padomatic.swellUpdate now s).waitingForSignal = s.waitingForSignal := by
  unfold Padomatic.swellUpdate
  split_ifs <;> simp_all

theorem rmsUpdate_flags (now : Nat) (s : Padomatic.State) (p : ℚ) :
    (Padomatic.rmsUpdate now s p).loopingActive = s.loopingActive ∧
    (Padomatic.rmsUpdate now s p).recordingActive = s.recordingActive ∧
    (Padomatic.rmsUpdate now s p).waitingForSignal = s.waitingForSignal := by
  simp only [Padomatic.rmsUpdate]
  split_ifs <;> simp_all

theorem recordPhase_flags (s : Padomatic.State) (p : ℚ) :
    (Padomatic.recordPhase s p).loopingActive = s.loopingActive ∧
    (Padomatic.recordPhase s p).recordingActive = s.recordingActive ∧
    (Padomatic.recordPhase s p).waitingForSignal = s.waitingForSignal := by
  unfold Padomatic.recordPhase
  split_ifs <;> simp_all

theorem processSample_flags (now : Nat) (g : ℚ) (s : Padomatic.State) (b : Int) :
    (Padomatic.processSample now g s b).loopingActive = s.loopingActive ∧
    (s.waitingForSignal = false →
      (Padomatic.processSample now g s b).waitingForSignal = false ∧
      (Padomatic.processSample now g s b).recordingActive = s.recordingActive) := by
  simp only [Padomatic.processSample]
  constructor
  · rw [(recordPhase_flags _ _).1, (rmsUpdate_flags _ _ _).1, (swellUpdate_flags _ _).1,
      (detectPhase_flags _ _ _).1]
  · intro hw
    have hd := (detectPhase_flags now s ((b : ℚ) / 32768)).2 hw
    constructor
    · rw [(recordPhase_flags _ _).2.2, (rmsUpdate_flags _ _ _).2.2, (swellUpdate_flags _ _).2.2,
        hd, hw]
    · rw [(recordPhase_flags _ _).2.1, (rmsUpdate_flags _ _ _).2.1, (swellUpdate_flags _ _).2.1,
        hd]

theorem processSample_frozen (now : Nat) (g : ℚ) (s : Padomatic.State) (b : Int)
    (h : Padomatic.Frozen s) : Padomatic.Frozen (Padomatic.processSample now g s b) := by
  obtain ⟨hl, hr, hw⟩ := h
  have hp := processSample_flags now g s b
  exact ⟨by rw [hp.1]; exact hl, by rw [(hp.2 hw).2]; exact hr, (hp.2 hw).1⟩

theorem audioPhase_looping (now : Nat) (g : ℚ) (audio : Option (List Int))
    (s : Padomatic.State) (h : s.loopingActive = true) :
    (Padomatic.audioPhase now g audio s).loopingActive = true := by
  cases audio with
  | none => exact h
  | some block =>
    refine foldl_preserve (fun st => st.loopingActive = true) (Padomatic.processSample now g)
      ?_ block s h
    intro a b ha
    show (Padomatic.processSample now g a b).loopingActive = true
    rw [(processSample_flags now g a b).1]
    exact ha

theorem audioPhase_frozen (now : Nat) (g : ℚ) (audio : Option (List Int))
    (s : Padomatic.State) (h : Padomatic.Frozen s) :
    Padomatic.Frozen (Padomatic.audioPhase now g audio s) := by
  cases audio with
  | none => exact h
  | some block =>
    exact foldl_preserve Padomatic.Frozen (Padomatic.processSample now g)
      (fun a b ha => processSample_frozen now g a b ha) block s h

theorem recordTimeoutPhase_props (s : Padomatic.State) (now : Nat) :
    (s.loopingActive = true → (Padomatic.recordTimeoutPhase s now).loopingActive = true) ∧
    (Padomatic.Frozen s → Padomatic.recordTimeoutPhase s now = s) := by
  unfold Padomatic.recordTimeoutPhase Padomatic.Frozen
  split_ifs <;> simp_all

theorem silenceFreezePhase_props (s : Padomatic.State) (now : Nat) :
    (s.loopingActive = true → (Padomatic.silenceFreezePhase s now).loopingActive = true) ∧
    (Padomatic.Frozen s → Padomatic.silenceFreezePhase s now = s) := by
  unfold Padomatic.silenceFreezePhase Padomatic.Frozen
  split_ifs <;> simp_all

theorem playbackPhase_flags (s : Padomatic.State) :
    (Padomatic.playbackPhase s).loopingActive = s.loopingActive ∧
    (Padomatic.playbackPhase s).recordingActive = s.recordingActive ∧
    (Padomatic.playbackPhase s).waitingForSignal = s.waitingForSignal := by
  unfold Padomatic.playbackPhase
  split_ifs <;> simp_all

theorem padomatic_loop_frozen (s : Padomatic.State) (reading : Bool) (now : Nat)
    (audio : Option (List Int)) (g : ℚ) :
    (s.loopingActive = true → (Padomatic.loop s reading now audio g).loopingActive = true) ∧
    (Padomatic.Frozen s → Padomatic.Frozen (Padomatic.loop s reading now audio g)) := by
  unfold Padomatic.loop
  constructor
  · intro h
    have h1 : (Padomatic.footswitchPhase s reading now).loopingActive = true := by
      rw [(footswitchPhase_flags s reading now).1]; exact h
    have h2 := audioPhase_looping now g audio (Padomatic.footswitchPhase s reading now) h1
    have h3 := (recordTimeoutPhase_props _ now).1 h2
    have h4 := (silenceFreezePhase_props _ now).1 h3
    rw [(playbackPhase_flags _).1]
    exact h4
  · intro h
    obtain ⟨hl, hr, hw⟩ := h
    have hfs := footswitchPhase_flags s reading now
    have h1 : Padomatic.Frozen (Padomatic.footswitchPhase s reading now) :=
      ⟨by rw [hfs.1]; exact hl, by rw [hfs.2.1]; exact hr, by rw [hfs.2.2 hl]; exact hw⟩
    have h2 := audioPhase_frozen now g audio _ h1
    have h3 : Padomatic.Frozen (Padomatic.recordTimeoutPhase
        (Padomatic.audioPhase now g audio (Padomatic.footswitchPhase s reading now)) now) := by
      rw [(recordTimeoutPhase_props _ now).2 h2]; exact h2
    have h4 : Padomatic.Frozen (Padomatic.silenceFreezePhase (Padomatic.recordTimeoutPhase
        (Padomatic.audioPhase now g audio (Padomatic.footswitchPhase s reading now)) now) now) := by
      rw [(silenceFreezePhase_props _ now).2 h3]; exact h3
    have hpb := playbackPhase_flags (Padomatic.silenceFreezePhase (Padomatic.recordTimeoutPhase
      (Padomatic.audioPhase now g audio (Padomatic.footswitchPhase s reading now)) now) now)
    exact ⟨by rw [hpb.1]; exact h4.1, by rw [hpb.2.1]; exact h4.2.1, by rw [hpb.2.2]; exact h4.2.2⟩

/-- C9: in `padomatic.ino`, once `loopingActive` becomes true it never
becomes false again over any sequence of ticks: no code path clears it, the
footswitch branch only takes effect when neither `recordingActive` nor
`loopingActive` is set, and from a frozen loop (`Frozen`) neither the
footswitch nor any audio input can ever re-enter listening or recording, so
the loop can never be stopped, restarted or re-recorded. -/
theorem c9_frozen_loop_is_permanent (s : Padomatic.State) (inputs : List Padomatic.TickInput) :
    (s.loopingActive = true → (Padomatic.run s inputs).loopingActive = true) ∧
    (Padomatic.Frozen s → Padomatic.Frozen (Padomatic.run s inputs)) := by
  unfold Padomatic.run
  constructor
  · intro h
    exact foldl_preserve (fun st => st.loopingActive = true) _
      (fun a b ha => (padomatic_loop_frozen a b.reading b.now b.audio b.gain).1 ha)
      inputs s h
  · intro h
    exact foldl_preserve Padomatic.Frozen _
      (fun a b ha => (padomatic_loop_frozen a b.reading b.now b.audio b.gain).2 ha)
      inputs s h

theorem range_map_cons (c n : Nat) :
    (List.range (n + 1)).map (c + ·) = c :: (List.range n).map ((c + 1) + ·) := by
  rw [List.range_succ_eq_map, List.map_cons, List.map_map]
  refine congrArg₂ _ (by omega) (List.map_congr_left ?_)
  intro i _
  simp [Function.comp]
  omega

theorem range_map_append (c m n : Nat) :
    (List.range m).map (c + ·) ++ (List.range n).map ((c + m) + ·)
      = (List.range (m + n)).map (c + ·) := by
  rw [List.range_add, List.map_append, List.map_map]
  refine congrArg _ (List.map_congr_left ?_)
  intro i _
  simp [Function.comp]
  omega

theorem playBlockAux_noJump (start endIdx : Nat) (looping : Bool) :
    ∀ (n cur : Nat), cur < Part000.BUFFER_SAMPLES → cur + n ≤ Part000.BUFFER_SAMPLES →
      Part000.playBlockAux start endIdx true false looping n cur
        = ((List.range n).map (cur + ·),
           if cur + n = Part000.BUFFER_SAMPLES then 0 else cur + n) := by
  intro n
  induction n with
  | zero =>
    intro cur hlt _
    simp [Part000.playBlockAux]
    split_ifs <;> omega
  | succ n ih =>
    intro cur hlt hle
    simp only [Part000.playBlockAux]
    by_cases hwrap : cur + 1 ≥ Part000.BUFFER_SAMPLES
    · have hc : cur + 1 = Part000.BUFFER_SAMPLES := by omega
      have hn : n = 0 := by omega
      subst hn
      simp [Part000.playBlockAux, hwrap, hc, range_map_cons]
    · have hgoal := ih (cur + 1) (by omega) (by omega)
      simp [hwrap, hgoal, range_map_cons]
      split_ifs <;> omega

theorem playBlockAux_jump (start endIdx : Nat) :
    ∀ (n cur : Nat), cur + n ≤ endIdx → endIdx < Part000.BUFFER_SAMPLES →
      Part000.playBlockAux start endIdx true true true n cur
        = ((List.range n).map (cur + ·),
           if cur + n = endIdx ∧ 0 < n then start else cur + n) := by
  intro n
  induction n with
  | zero =>
    intro cur _ _
    simp [Part000.playBlockAux]
  | succ n ih =>
    intro cur hle hend
    simp only [Part000.playBlockAux]
    have hnowrap : ¬ cur + 1 ≥ Part000.BUFFER_SAMPLES := by omega
    by_cases hjump : cur + 1 ≥ endIdx
    · have hc : cur + 1 = endIdx := by omega
      have hn : n = 0 := by omega
      subst hn
      simp [Part000.playBlockAux, hnowrap, hjump, range_map_cons]
      split_ifs
      omega
    · have hgoal := ih (cur + 1) (by omega) hend
      simp [hnowrap, hjump, hgoal, range_map_cons]
      split_ifs <;> omega

theorem playLoop_tail (start endIdx cur : Nat) (hgt : endIdx < start) (hcur : start ≤ cur)
    (hlt : cur < Part000.BUFFER_SAMPLES) (hle : cur + 128 ≤ Part000.BUFFER_SAMPLES) :
    Part000.playLoop start endIdx cur true
      = ((List.range 128).map (cur + ·),
         if cur + 128 = Part000.BUFFER_SAMPLES then 0 else cur + 128) := by
  unfold Part000.playLoop
  have h1 : decide (start > endIdx) = true := decide_eq_true hgt
  have h2 : decide (cur < start) = false := by simp; omega
  simp only [h1, h2, Bool.true_and, Bool.and_false]
  exact playBlockAux_noJump start endIdx true 128 cur hlt hle

theorem playLoop_head (start endIdx cur : Nat) (hgt : endIdx < start) (hcur : cur < start)
    (hle : cur + 128 ≤ endIdx) (hend : endIdx < Part000.BUFFER_SAMPLES) :
    Part000.playLoop start endIdx cur true
      = ((List.range 128).map (cur + ·),
         if cur + 128 = endIdx then start else cur + 128) := by
  unfold Part000.playLoop
  have h1 : decide (start > endIdx) = true := decide_eq_true hgt
  have h2 : decide (cur < start) = true := decide_eq_true hcur
  simp only [h1, h2, Bool.and_true, Bool.true_and]
  rw [playBlockAux_jump start endIdx 128 cur hle hend]
  have hpos : (0 : Nat) < 128 := by omega
  simp [hpos]

theorem playBlocks_add (start endIdx : Nat) :
    ∀ (m n cur : Nat),
      Part000.playBlocks start endIdx (m + n) cur
        = ((Part000.playBlocks start endIdx m cur).1
            ++ (Part000.playBlocks start endIdx n
                  (Part000.playBlocks start endIdx m cur).2).1,
           (Part000.playBlocks start endIdx n
              (Part000.playBlocks start endIdx m cur).2).2) := by
  intro m
  induction m with
  | zero =>
    intro n cur
    simp [Part000.playBlocks]
  | succ m ih =>
    intro n cur
    have harith : m + 1 + n = (m + n) + 1 := by omega
    rw [harith]
    simp only [Part000.playBlocks]
    rw [ih n (Part000.playLoop start endIdx cur true).2]
    simp [List.append_assoc]

theorem playBlocks_tail_run (start endIdx a : Nat) (hgt : endIdx < start)
    (hB : Part000.BUFFER_SAMPLES = start + 128 * a) :
    ∀ (k j : Nat), j + k = a →
      Part000.playBlocks start endIdx k (start + 128 * j)
        = ((List.range (128 * k)).map ((start + 128 * j) + ·),
           if k = 0 then start + 128 * j else 0) := by
  intro k
  induction k with
  | zero =>
    intro j _
    simp [Part000.playBlocks]
  | succ k ih =>
    intro j hj
    simp only [Part000.playBlocks]
    rw [playLoop_tail start endIdx (start + 128 * j) hgt (by omega) (by omega) (by omega)]
    by_cases hlast : k = 0
    · subst hlast
      have hc : start + 128 * j + 128 = Part000.BUFFER_SAMPLES := by omega
      rw [if_pos hc]
      simp [Part000.playBlocks]
    · have hne : ¬ start + 128 * j + 128 = Part000.BUFFER_SAMPLES := by omega
      rw [if_neg hne]
      have hstep : start + 128 * j + 128 = start + 128 * (j + 1) := by omega
      rw [hstep, ih (j + 1) (by omega), if_neg hlast, hstep.symm,
        range_map_append (start + 128 * j) 128 (128 * k)]
      have harith : 128 + 128 * k = 128 * (k + 1) := by omega
      rw [harith]
      simp

theorem playBlocks_head_run (start endIdx b : Nat) (hgt : endIdx < start)
    (hE : endIdx = 128 * b) (hend : endIdx < Part000.BUFFER_SAMPLES) :
    ∀ (k j : Nat), j + k = b →
      Part000.playBlocks start endIdx k (128 * j)
        = ((List.range (128 * k)).map ((128 * j) + ·),
           if k = 0 then 128 * j else start) := by
  intro k
  induction k with
  | zero =>
    intro j _
    simp [Part000.playBlocks]
  | succ k ih =>
    intro j hj
    simp only [Part000.playBlocks]
    rw [playLoop_head start endIdx (128 * j) hgt (by omega) (by omega) hend]
    by_cases hlast : k = 0
    · subst hlast
      have hc : 128 * j + 128 = endIdx := by omega
      rw [if_pos hc]
      simp [Part000.playBlocks]
    · have hne : ¬ 128 * j + 128 = endIdx := by omega
      rw [if_neg hne]
      have hstep : 128 * j + 128 = 128 * (j + 1) := by omega
      rw [hstep, ih (j + 1) (by omega), if_neg hlast, hstep.symm,
        range_map_append (128 * j) 128 (128 * k)]
      have harith : 128 + 128 * k = 128 * (k + 1) := by omega
      rw [harith]
      simp

theorem playBlocks_period (start endIdx a b : Nat) (ha : 0 < a) (hb : 0 < b)
    (hgt : endIdx < start) (hB : Part000.BUFFER_SAMPLES = start + 128 * a)
    (hE : endIdx = 128 * b) :
    Part000.playBlocks start endIdx (a + b) start
      = ((List.range (128 * a)).map (start + ·) ++ List.range (128 * b), start) := by
  rw [playBlocks_add]
  have htail := playBlocks_tail_run start endIdx a hgt hB a 0 (by omega)
  rw [show start + 128 * 0 = start by omega] at htail
  rw [if_neg (by omega)] at htail
  rw [htail]
  have hhead := playBlocks_head_run start endIdx b hgt hE (by omega) b 0 (by omega)
  simp only [Nat.mul_zero, Nat.zero_add] at hhead
  rw [if_neg (by omega)] at hhead
  rw [hhead]
  simp

/-- C2 (amended): for a wrapping loop region (`loopStart > loopEnd`) whose
pre-wrap tail `BUFFER_SAMPLES - loopStart` and post-wrap head `loopEnd` are
both whole multiples of the 128-sample block that `playLoop` processes per
call, a playback cursor starting at `loopStart` produces, over any number of
whole periods, exactly the claimed index sequence `loopStart, ...,
capacity-1, 0, ..., loopEnd-1, loopStart, ...` with no skipped or duplicated
index, and the cursor returns to `loopStart` only after physically wrapping
past the buffer end.  (The block alignment is necessary: `playLoop` freezes
its `alreadyWrapped` flag for the whole 128-sample block, so an unaligned
region overruns `loopEnd` in the block where the physical wrap occurs and
repeats `loopStart` for the rest of the block in which the jump fires — see
the counterexample.) -/
theorem c2_region_wrap_aligned (start endIdx a b n : Nat) (ha : 0 < a) (hb : 0 < b)
    (hgt : endIdx < start) (hB : Part000.BUFFER_SAMPLES = start + 128 * a)
    (hE : endIdx = 128 * b) :
    Part000.playBlocks start endIdx ((a + b) * n) start
      = (List.flatten (List.replicate n
          ((List.range (128 * a)).map (start + ·) ++ List.range (128 * b))), start) := by
  induction n with
  | zero => simp [Part000.playBlocks]
  | succ n ih =>
    have harith : (a + b) * (n + 1) = (a + b) + (a + b) * n := by ring
    rw [harith, playBlocks_add, playBlocks_period start endIdx a b ha hb hgt hB hE]
    simp only [ih, List.replicate_succ, List.flatten_cons]

theorem c2_region_wrap_aligned_witness :
    Part000.BUFFER_SAMPLES = 214987248 + 128 * 2 ∧ (256 : Nat) = 128 * 2 ∧
    Part000.playBlocks 214987248 256 ((2 + 2) * 1) 214987248
      = (List.flatten (List.replicate 1
          ((List.range (128 * 2)).map (214987248 + ·) ++ List.range (128 * 2))),
         214987248) :=
  ⟨by decide, by decide,
   c2_region_wrap_aligned 214987248 256 2 2 1 (by decide) (by decide) (by decide)
     (by decide) (by decide)⟩

/-- C2 counterexample: for the wrapping region `loopStart = 214987454 >
loopEnd = 50` and a cursor starting at `loopStart`, the very first
128-sample block of `playLoop` already deviates from the claimed sequence:
the block's `alreadyWrapped` flag was computed at block entry (before the
physical wrap), so when the cursor wraps and reaches `loopEnd` mid-block it
does not jump back to `loopStart` — position 100 of the produced sequence is
the out-of-region index 50 where the claimed sequence has `loopStart`. -/
theorem c2_region_wrap_counterexample :
    ¬ ∀ i, i < 128 → (Part000.playLoop 214987454 50 214987454 true).1.getD i 0
        = Part000.specRegionSeq Part000.BUFFER_SAMPLES 214987454 50 i := by
  decide

theorem c9_frozen_loop_is_permanent_witness :
    Padomatic.Frozen Padomatic.frozenState ∧
    Padomatic.Frozen (Padomatic.run Padomatic.frozenState
      [⟨false, 1000, none, 0⟩, ⟨false, 1100, some [1000, -1000], 1 / 2⟩]) :=
  ⟨by decide,
   (c9_frozen_loop_is_permanent Padomatic.frozenState
     [⟨false, 1000, none, 0⟩, ⟨false, 1100, some [1000, -1000], 1 / 2⟩]).2 (by decide)⟩
